import Mathlib

/-!
Shallow embedding of the LawBot conversation/session state machine
(src/handlers/registration.py, src/handlers/conversation.py,
src/handlers/global_handlers.py, src/database/database_support.py,
src/main.py).

The persistent per-user Firestore document is modelled as an optional
record (`Db := Option UserDoc`, `none` = no session).  Every store
operation of database_support.py swallows its own exceptions (each body
is wrapped in try/except that only prints), so each is modelled as a
total function taking a `fail` flag: on failure the store is returned
unchanged and no error is signalled to the caller.  Firestore `update`
on a missing document raises (caught, swallowed), so updates leave
`none` unchanged; `set(..., merge=True)` creates the document.

Telegram handlers are modelled as pure functions from the store, the
in-memory dialogue history (`utils/conversation_store.py` keeps a
process-wide dict user id -> list; a missing key is identified with the
empty list) and the inbound payload to an `HRes` record collecting the
new store, the new history, the chat replies sent, the e-mails
dispatched, the turn sequence passed to the OpenAI client (`none` when
no model call is made) and the integer conversation-handler return
value.  Random code generation and config prompts enter as parameters.
-/

namespace LawBot

/-- Model of Python `str.strip()` with no arguments (whitespace on both ends). -/
def pyStrip (s : String) : String :=
  String.mk (((s.data.dropWhile Char.isWhitespace).reverse.dropWhile Char.isWhitespace).reverse)

/-- Model of Python `str.endswith(suffix)`. -/
def pyEndsWith (s suffix : String) : Bool :=
  List.isSuffixOf suffix.data s.data

/-- Per-user Firestore document (collection `users`), fields as written by
database_support.py; every field may be absent (`none`). -/
structure UserDoc where
  email : Option String
  verification_code : Option String
  conversation_state : Option String
  case_data : Option String
  issues : Option String
  aspects : Option String
deriving DecidableEq, Repr

/-- The store as seen by one user: `none` when the document does not exist. -/
def Db := Option UserDoc
deriving DecidableEq, Repr

/-- Conversation-handler integer constants (utils/constants.py is not in the
source tree; the values mirror the identical constants defined in
src/bot/handlers.py lines 33-42). -/
def STARTED : Int := 0

def AWAITING_EMAIL : Int := 1

def AWAITING_VERIFICATION_CODE : Int := 2

def VERIFIED : Int := 3

def AWAITING_CASE : Int := 4

def STAGE_1 : Int := 5

def AWAITING_ISSUES : Int := 6

def STAGE_2 : Int := 7

def AWAITING_ASPECTS : Int := 8

def STAGE_3 : Int := 9

/-- `telegram.ext.ConversationHandler.END`. -/
def END : Int := -1

/-- database_support.insert_user, called with `case_data`, `issues`, `aspects`
left at `None` (the only call site, global_handlers.handle_new_user_registration,
passes none of them), so those keys are omitted from the merge payload. -/
def insert_user (fail : Bool) (db : Db) (email code : Option String) (cs : String) : Db :=
  if fail then db else
  match db with
  | none => some ⟨email, code, some cs, none, none, none⟩
  | some d => some { d with email := email, verification_code := code, conversation_state := some cs }

/-- database_support.update_user_email: sets email, verification_code and
forces conversation_state to AWAITING_VERIFICATION_CODE. -/
def update_user_email (fail : Bool) (db : Db) (new_email : Option String) (code : String) : Db :=
  if fail then db else
  match db with
  | none => db
  | some d => some { d with email := new_email, verification_code := some code,
                            conversation_state := some "AWAITING_VERIFICATION_CODE" }

/-- database_support.update_user_conversation_state. -/
def update_user_conversation_state (fail : Bool) (db : Db) (cs : String) : Db :=
  if fail then db else
  match db with
  | none => db
  | some d => some { d with conversation_state := some cs }

/-- database_support.reset_user_registration: deletes email, code, case,
issues and aspects and sets conversation_state to STARTED. -/
def reset_user_registration (fail : Bool) (db : Db) : Db :=
  if fail then db else
  match db with
  | none => db
  | some _ => some ⟨none, none, some "STARTED", none, none, none⟩

/-- database_support.get_conversation_state. -/
def get_conversation_state (db : Db) : Option String :=
  db.bind fun d => d.conversation_state

/-- database_support.get_user_email. -/
def get_user_email (db : Db) : Option String :=
  db.bind fun d => d.email

/-- database_support.user_exists. -/
def user_exists (db : Db) : Bool :=
  db.isSome

/-- database_support.get_verification_code. -/
def get_verification_code (db : Db) : Option String :=
  db.bind fun d => d.verification_code

/-- database_support.delete_user_from_db. -/
def delete_user_from_db (fail : Bool) (db : Db) : Db :=
  if fail then db else none

/-- database_support.update_user_case_data. -/
def update_user_case_data (fail : Bool) (db : Db) (case_data : String) : Db :=
  if fail then db else
  match db with
  | none => db
  | some d => some { d with case_data := some case_data }

/-- database_support.get_user_case_data. -/
def get_user_case_data (db : Db) : Option String :=
  db.bind fun d => d.case_data

/-- database_support.update_user_issues. -/
def update_user_issues (fail : Bool) (db : Db) (issues : String) : Db :=
  if fail then db else
  match db with
  | none => db
  | some d => some { d with issues := some issues }

/-- database_support.get_user_issues. -/
def get_user_issues (db : Db) : Option String :=
  db.bind fun d => d.issues

/-- database_support.update_user_aspects. -/
def update_user_aspects (fail : Bool) (db : Db) (aspects : String) : Db :=
  if fail then db else
  match db with
  | none => db
  | some d => some { d with aspects := some aspects }

/-- database_support.get_user_aspects. -/
def get_user_aspects (db : Db) : Option String :=
  db.bind fun d => d.aspects

/-- Role tag of one dialogue turn. -/
inductive Role where
  | system
  | user
  | assistant
deriving DecidableEq, Repr

/-- One role-tagged message dict as built by the stage handlers; the content
slot holds whatever Python value is put there (`None` possible, e.g. a missing
case_data field passed straight through). -/
structure Msg where
  role : Role
  content : Option String
deriving DecidableEq, Repr

/-- Observable outcome of one Telegram handler invocation: new store, new
dialogue history for this user, chat replies sent, e-mails dispatched as
(recipient, code) pairs, the ordered turn sequence passed to the model
(`none` when no model request is made), and the integer return value. -/
structure HRes where
  db : Db
  hist : List Msg
  replies : List String
  mails : List (Option String × String)
  sent : Option (List Msg)
  ret : Int
deriving DecidableEq, Repr

/-- registration.register (callback `register`): unconditionally moves the
persisted state to AWAITING_EMAIL and prompts for the e-mail address. -/
def register (dbFail : Bool) (db : Db) (hist : List Msg) : HRes :=
  ⟨update_user_conversation_state dbFail db "AWAITING_EMAIL", hist,
   ["Please enter your email address. It should be either \x27@ehu.lt\x27 or \x27@student.ehu.lt\x27."],
   [], none, AWAITING_EMAIL⟩

/-- registration.receive_email.  `genCode` stands for the value returned by
utils.generate_verification_code (a random 6-digit string, passed in as an
oracle); `sendFail` models mail.mail_confirmation.send_email raising.  The
try/except around update_user_email in the source is dead code — the store
adapter swallows its own exceptions — so the store write is unconditionally
followed by the mail dispatch. -/
def receive_email (dbFail sendFail : Bool) (genCode : String) (db : Db) (hist : List Msg)
    (text : String) : HRes :=
  let email := pyStrip text
  if !(pyEndsWith email "@ehu.lt" || pyEndsWith email "@student.ehu.lt") then
    ⟨db, hist,
     ["Invalid email! Please make sure your email is either \x27@ehu.lt\x27 or \x27@student.ehu.lt\x27. Try again."],
     [], none, AWAITING_EMAIL⟩
  else
    let db1 := update_user_email dbFail db (some email) genCode
    if sendFail then
      ⟨db1, hist, ["There was an error sending the verification email. Please try again later."],
       [], none, END⟩
    else
      ⟨db1, hist,
       ["Verification code sent to " ++ email ++ ". Please check your email and enter the code here."],
       [(some email, genCode)], none, AWAITING_VERIFICATION_CODE⟩

/-- registration.verify_code: compares the stripped input with the persisted
code; on a match it only rewrites conversation_state to VERIFIED (the
verification_code field is left as it is). -/
def verify_code (dbFail : Bool) (db : Db) (hist : List Msg) (text : String) : HRes :=
  let entered := pyStrip text
  match get_verification_code db with
  | none =>
      ⟨db, hist, ["There was an issue retrieving your verification code. Please try again later."],
       [], none, END⟩
  | some c =>
      if entered = c then
        ⟨update_user_conversation_state dbFail db "VERIFIED", hist,
         ["Your email has been verified! You can now use the bot."], [], none, VERIFIED⟩
      else
        ⟨db, hist,
         ["Incorrect code. Please try again or click the button below to resend the verification email."],
         [], none, AWAITING_VERIFICATION_CODE⟩

/-- registration.resend_verification.  `genCode` is the freshly generated
code.  The source sends the e-mail first and persists the new code afterwards
(both inside one try); a send failure therefore leaves the old code in the
store.  The reply text elides the timestamp interpolated in the source. -/
def resend_verification (dbFail sendFail : Bool) (genCode : String) (db : Db)
    (hist : List Msg) : HRes :=
  let email := get_user_email db
  let cs := get_conversation_state db
  if cs = some "VERIFIED" then
    ⟨db, hist, ["You\x27re verified and can continue using the bot."], [], none, END⟩
  else if sendFail then
    ⟨db, hist, ["Failed to resend verification email. Please try again later."], [], none, END⟩
  else
    ⟨update_user_email dbFail db email genCode, hist,
     ["The verification code has been resent. Please check your email."],
     [(email, genCode)], none, AWAITING_VERIFICATION_CODE⟩

/-- registration.cancel_registration: resets the registration record and
returns to STARTED (two chat messages are sent). -/
def cancel_registration (dbFail : Bool) (db : Db) (hist : List Msg) : HRes :=
  ⟨reset_user_registration dbFail db, hist,
   ["Registration has been canceled. To start again, please click the Register button.",
    "Welcome! You need to register before using the bot. Please click the button below to register."],
   [], none, STARTED⟩

/-- conversation.go_to_first_stage (callback `start_stage_1`): no precondition
check — the persisted state is unconditionally set to AWAITING_CASE. -/
def go_to_first_stage (dbFail : Bool) (db : Db) (hist : List Msg) : HRes :=
  ⟨update_user_conversation_state dbFail db "AWAITING_CASE", hist,
   ["Please enter your case for analysis or upload a document (PDF, DOC, or DOCX):"],
   [], none, AWAITING_CASE⟩

/-- conversation.go_to_second_stage (callback `start_stage_2`): guarded on the
persisted state being STAGE_1; otherwise rejects with no store write. -/
def go_to_second_stage (dbFail : Bool) (db : Db) (hist : List Msg) : HRes :=
  if get_conversation_state db ≠ some "STAGE_1" then
    ⟨db, hist, ["You need to complete Stage 1 before proceeding to Stage 2."], [], none, STAGE_1⟩
  else
    ⟨update_user_conversation_state dbFail db "AWAITING_ISSUES", hist,
     ["Please enter the issues identified in Stage 1:"], [], none, AWAITING_ISSUES⟩

/-- conversation.go_to_third_stage (callback `start_stage_3`): guarded on the
persisted state being STAGE_2; otherwise rejects with no store write. -/
def go_to_third_stage (dbFail : Bool) (db : Db) (hist : List Msg) : HRes :=
  if get_conversation_state db ≠ some "STAGE_2" then
    ⟨db, hist, ["You need to complete Stage 2 before proceeding to Stage 3."], [], none, STAGE_2⟩
  else
    ⟨update_user_conversation_state dbFail db "AWAITING_ASPECTS", hist,
     ["Please enter the aspects of legality and proportionality you will use:"],
     [], none, AWAITING_ASPECTS⟩

/-- conversation.receive_case, text-message branch (`text` is the message
body; for a document upload the extracted text plays the same role from the
extraction point on).  The dialogue history is cleared first thing; on
success the case text is persisted, issues and aspects are overwritten with
the empty string, and the state becomes STAGE_1. -/
def receive_case (db : Db) (hist : List Msg) (text : String) : HRes :=
  let hist0 : List Msg := []
  let case_text := pyStrip text
  if case_text = "" then
    ⟨db, hist0,
     ["I couldn\x27t extract any text from your document. Please make sure it contains readable text or send your case as a text message."],
     [], none, AWAITING_CASE⟩
  else
    let db1 := update_user_case_data false db case_text
    let db2 := update_user_issues false db1 ""
    let db3 := update_user_aspects false db2 ""
    let db4 := update_user_conversation_state false db3 "STAGE_1"
    ⟨db4, hist0,
     ["Case received and processed. You can now start the analysis. Please describe the issues you have identified."],
     [], none, STAGE_1⟩

/-- conversation.receive_issues: persists the stripped issues text, moves the
state to STAGE_2 and clears the dialogue history. -/
def receive_issues (db : Db) (hist : List Msg) (text : String) : HRes :=
  let issues_text := pyStrip text
  let db1 := update_user_issues false db issues_text
  let db2 := update_user_conversation_state false db1 "STAGE_2"
  ⟨db2, [],
   ["Issues received. You can now start the analysis for Stage 2. Please proceed with identifying aspects of legality and proportionality."],
   [], none, STAGE_2⟩

/-- conversation.receive_aspects: persists the stripped aspects text, moves
the state to STAGE_3 and clears the dialogue history. -/
def receive_aspects (db : Db) (hist : List Msg) (text : String) : HRes :=
  let aspects_text := pyStrip text
  let db1 := update_user_aspects false db aspects_text
  let db2 := update_user_conversation_state false db1 "STAGE_3"
  ⟨db2, [],
   ["All aspects are defined. Now, please write your arguments answering the question:\n\nDo the authorities\x27 decisions comply with the requirements of (1) legality and (2) proportionality?"],
   [], none, STAGE_3⟩

/-- Concatenation of a finite stream of completion chunks, in arrival order:
a chunk whose delta has no content (`none`) or empty content is skipped, as
in the handlers' `if hasattr(delta, ...) and delta.content` loop. -/
def stream_concat (stream : List (Option String)) : String :=
  stream.foldl (fun acc c =>
    match c with
    | some s => if s.isEmpty then acc else acc ++ s
    | none => acc) ""

/-- conversation.stage_one_conversation.  `text` is `update.message.text`
(`none` when the message has no text), `sp` the configured
SYSTEM_PROMPT_FIRST, `apiFail` models the OpenAI call raising, `stream` the
chunks of a completed stream.  The user turn is appended to the history
before the model call; an empty concatenated response raises ValueError,
caught into a failure reply with no assistant turn appended. -/
def stage_one_conversation (db : Db) (hist : List Msg) (text : Option String) (sp : String)
    (apiFail : Bool) (stream : List (Option String)) : HRes :=
  match text with
  | none =>
      ⟨db, hist, ["It seems like your message is empty. Please provide valid input."],
       [], none, STAGE_1⟩
  | some t =>
      let m := pyStrip t
      if m = "" then
        ⟨db, hist, ["It seems like your message is empty. Please provide valid input."],
         [], none, STAGE_1⟩
      else if get_conversation_state db ≠ some "STAGE_1" then
        ⟨db, hist, ["Please start Stage 1 first by selecting it from the menu."],
         [], none, STAGE_1⟩
      else
        let user_case := get_user_case_data db
        let hist1 := hist ++ [⟨Role.user, some m⟩]
        let messages := [⟨Role.system, some sp⟩, ⟨Role.user, user_case⟩] ++ hist1
        if apiFail then
          ⟨db, hist1, ["Sorry, there was an error processing your request. Please try again."],
           [], some messages, STAGE_1⟩
        else
          let response := stream_concat stream
          if pyStrip response = "" then
            ⟨db, hist1, ["There was an error with the message format. Please try again."],
             [], some messages, STAGE_1⟩
          else
            ⟨db, hist1 ++ [⟨Role.assistant, some response⟩], [response],
             [], some messages, STAGE_1⟩

/-- conversation.stage_two_conversation; the seeded prefix additionally
carries the persisted issues text. -/
def stage_two_conversation (db : Db) (hist : List Msg) (text : Option String) (sp : String)
    (apiFail : Bool) (stream : List (Option String)) : HRes :=
  match text with
  | none =>
      ⟨db, hist, ["It seems like your message is empty. Please provide valid input."],
       [], none, STAGE_2⟩
  | some t =>
      let m := pyStrip t
      if m = "" then
        ⟨db, hist, ["It seems like your message is empty. Please provide valid input."],
         [], none, STAGE_2⟩
      else if get_conversation_state db ≠ some "STAGE_2" then
        ⟨db, hist, ["Please start Stage 2 first by selecting it from the menu."],
         [], none, STAGE_2⟩
      else
        let user_case := get_user_case_data db
        let user_issues := get_user_issues db
        let hist1 := hist ++ [⟨Role.user, some m⟩]
        let messages := [⟨Role.system, some sp⟩, ⟨Role.user, user_case⟩,
                         ⟨Role.user, user_issues⟩] ++ hist1
        if apiFail then
          ⟨db, hist1, ["Sorry, there was an error processing your request. Please try again."],
           [], some messages, STAGE_2⟩
        else
          let response := stream_concat stream
          if pyStrip response = "" then
            ⟨db, hist1, ["There was an error with the message format. Please try again."],
             [], some messages, STAGE_2⟩
          else
            ⟨db, hist1 ++ [⟨Role.assistant, some response⟩], [response],
             [], some messages, STAGE_2⟩

/-- conversation.stage_three_conversation; the seeded prefix additionally
carries the persisted issues and aspects texts. -/
def stage_three_conversation (db : Db) (hist : List Msg) (text : Option String) (sp : String)
    (apiFail : Bool) (stream : List (Option String)) : HRes :=
  match text with
  | none =>
      ⟨db, hist, ["It seems like your message is empty. Please provide valid input."],
       [], none, STAGE_3⟩
  | some t =>
      let m := pyStrip t
      if m = "" then
        ⟨db, hist, ["It seems like your message is empty. Please provide valid input."],
         [], none, STAGE_3⟩
      else if get_conversation_state db ≠ some "STAGE_3" then
        ⟨db, hist, ["Please start Stage 3 first by selecting it from the menu."],
         [], none, STAGE_3⟩
      else
        let user_case := get_user_case_data db
        let user_issues := get_user_issues db
        let user_aspects := get_user_aspects db
        let hist1 := hist ++ [⟨Role.user, some m⟩]
        let messages := [⟨Role.system, some sp⟩, ⟨Role.user, user_case⟩,
                         ⟨Role.user, user_issues⟩, ⟨Role.user, user_aspects⟩] ++ hist1
        if apiFail then
          ⟨db, hist1, ["Sorry, there was an error processing your request. Please try again."],
           [], some messages, STAGE_3⟩
        else
          let response := stream_concat stream
          if pyStrip response = "" then
            ⟨db, hist1, ["There was an error with the message format. Please try again."],
             [], some messages, STAGE_3⟩
          else
            ⟨db, hist1 ++ [⟨Role.assistant, some response⟩], [response],
             [], some messages, STAGE_3⟩

/-- global_handlers.delete_user (`/delete` command): deletes the Firestore
document (the adapter swallows failures) and replies; the in-memory dialogue
history is not touched by this handler. -/
def delete_user (db : Db) (hist : List Msg) : HRes :=
  ⟨delete_user_from_db false db, hist,
   ["Your data has been deleted. To start again, use the /start command."],
   [], none, END⟩

/-- global_handlers.start (`/start` command): a new user is inserted with
state STARTED and null email/code; an existing user is answered according to
the persisted state with no store write (a falsy stored state — missing or
empty — yields the generic error and END, an unrecognized one the
unexpected-state reply and END). -/
def start (db : Db) (hist : List Msg) : HRes :=
  if user_exists db = false then
    ⟨insert_user false db none none "STARTED", hist,
     ["Welcome! You need to register before using the bot. Please click the button below to register."],
     [], none, STARTED⟩
  else
    match get_conversation_state db with
    | none =>
        ⟨db, hist, ["Sorry, an error occurred. Please try again or contact support if the issue persists."],
         [], none, END⟩
    | some cs =>
        if cs = "" then
          ⟨db, hist, ["Sorry, an error occurred. Please try again or contact support if the issue persists."],
           [], none, END⟩
        else if cs = "STARTED" then
          ⟨db, hist, ["You\x27ve already started the process. Please register to continue."],
           [], none, STARTED⟩
        else if cs = "AWAITING_EMAIL" then
          ⟨db, hist, ["Please enter your email address. It should be either \x27@ehu.lt\x27 or \x27@student.ehu.lt\x27."],
           [], none, AWAITING_EMAIL⟩
        else if cs = "AWAITING_VERIFICATION_CODE" then
          ⟨db, hist, ["Please enter the verification code sent to your email, or click below to resend the code."],
           [], none, AWAITING_VERIFICATION_CODE⟩
        else if cs = "VERIFIED" || cs = "STAGE_1" || cs = "STAGE_2" || cs = "STAGE_3" then
          ⟨db, hist, ["You are verified and can now use the bot. Use /menu to configure your case."],
           [], none, VERIFIED⟩
        else
          ⟨db, hist, ["Sorry, I encountered an unexpected state. Please contact support."],
           [], none, END⟩

/-- One inbound event for a single user, carrying the external payloads
(message texts, generated codes, configured prompts, model streams) as
oracle data.  Store writes are taken failure-free here: this transition
system describes the failure-free executions of the machine. -/
inductive Event where
  | evStart
  | evRegister
  | evEmail (text code : String)
  | evVerify (text : String)
  | evResend (code : String)
  | evCancel
  | evStage1Btn
  | evStage2Btn
  | evStage3Btn
  | evCase (text : String)
  | evIssues (text : String)
  | evAspects (text : String)
  | evChat1 (text : Option String) (sp : String) (stream : List (Option String))
  | evChat2 (text : Option String) (sp : String) (stream : List (Option String))
  | evChat3 (text : Option String) (sp : String) (stream : List (Option String))
  | evDelete
deriving DecidableEq, Repr

/-- A per-user configuration of the whole system: the persisted document and
the in-memory dialogue history. -/
def Sys := Db × List Msg
deriving DecidableEq, Repr

/-- Initial configuration: no session, empty dialogue history. -/
def Sinit : Sys := (none, [])

/-- Effect of one event on the store and the dialogue history: the handler
the source routes the event to is applied and its db/hist components kept. -/
def step (γ : Sys) (e : Event) : Sys :=
  let r : HRes :=
    match e with
    | .evStart => start γ.1 γ.2
    | .evRegister => register false γ.1 γ.2
    | .evEmail t c => receive_email false false c γ.1 γ.2 t
    | .evVerify t => verify_code false γ.1 γ.2 t
    | .evResend c => resend_verification false false c γ.1 γ.2
    | .evCancel => cancel_registration false γ.1 γ.2
    | .evStage1Btn => go_to_first_stage false γ.1 γ.2
    | .evStage2Btn => go_to_second_stage false γ.1 γ.2
    | .evStage3Btn => go_to_third_stage false γ.1 γ.2
    | .evCase t => receive_case γ.1 γ.2 t
    | .evIssues t => receive_issues γ.1 γ.2 t
    | .evAspects t => receive_aspects γ.1 γ.2 t
    | .evChat1 t sp st => stage_one_conversation γ.1 γ.2 t sp false st
    | .evChat2 t sp st => stage_two_conversation γ.1 γ.2 t sp false st
    | .evChat3 t sp st => stage_three_conversation γ.1 γ.2 t sp false st
    | .evDelete => delete_user γ.1 γ.2
  (r.db, r.hist)

/-- Configuration after a sequence of events. -/
def run (γ : Sys) : List Event → Sys
  | [] => γ
  | e :: es => run (step γ e) es

/-- Whether, along the given event sequence from `γ`, some configuration
right after a step has persisted conversation_state `s`. -/
def reachedDuring (s : String) (γ : Sys) : List Event → Bool
  | [] => false
  | e :: es =>
      let γ1 := step γ e
      (get_conversation_state γ1.1 == some s) || reachedDuring s γ1 es

/-- Whether the persisted issues field holds a non-empty string. -/
def issuesNonempty (γ : Sys) : Bool :=
  match get_user_issues γ.1 with
  | some s => !s.isEmpty
  | none => false

/-- Whether the persisted aspects field holds a non-empty string. -/
def aspectsNonempty (γ : Sys) : Bool :=
  match get_user_aspects γ.1 with
  | some s => !s.isEmpty
  | none => false

/-- Concrete session fixture: a user awaiting the verification code 123456. -/
def docAwaitCode : UserDoc :=
  ⟨some "a@ehu.lt", some "123456", some "AWAITING_VERIFICATION_CODE", none, none, none⟩

/-- Concrete session fixture: a verified user (the code field is still set,
mirroring what verify_code actually leaves behind). -/
def docVerified : UserDoc :=
  ⟨some "a@ehu.lt", some "123456", some "VERIFIED", none, none, none⟩

/-- Concrete session fixture: a user inside stage 1 (fresh case, issues and
aspects overwritten with the empty string by receive_case). -/
def docStage1 : UserDoc :=
  ⟨some "a@ehu.lt", some "123456", some "STAGE_1", some "case text", some "", some ""⟩

/-- Concrete session fixture: a user inside stage 2. -/
def docStage2 : UserDoc :=
  ⟨some "a@ehu.lt", some "123456", some "STAGE_2", some "case text", some "issues text",
   some ""⟩

/-- Concrete session fixture: a user inside stage 3. -/
def docStage3 : UserDoc :=
  ⟨some "a@ehu.lt", some "123456", some "STAGE_3", some "case text", some "issues text",
   some "aspects text"⟩

/-- Concrete failure-free event trace: registration through to a first case
submission, never passing through STAGE_2. -/
def evsCase : List Event :=
  [.evStart, .evRegister, .evEmail "a@ehu.lt" "111111", .evVerify "111111",
   .evStage1Btn, .evCase "my case"]

/-- Concrete failure-free event trace: the full happy path through issues and
aspects submission into STAGE_3. -/
def evsFull : List Event :=
  evsCase ++ [.evStage2Btn, .evIssues "the issues", .evStage3Btn, .evAspects "the aspects"]

/-- C1 counterexample: submitting the correct code 123456 moves the state to
VERIFIED but the persisted verification_code field still holds 123456, so it
is not cleared and is non-null in state VERIFIED. -/
theorem C1_counterexample :
    (verify_code false (some docAwaitCode) [] "123456").db =
      some ⟨some "a@ehu.lt", some "123456", some "VERIFIED", none, none, none⟩ ∧
    get_verification_code (verify_code false (some docAwaitCode) [] "123456").db =
      some "123456" ∧
    get_conversation_state (verify_code false (some docAwaitCode) [] "123456").db =
      some "VERIFIED" := by
  exact ⟨rfl, rfl, rfl⟩

/-- C1 (amended): when a user in AWAITING_VERIFICATION_CODE submits a code
equal to the persisted verification code, the conversation state becomes
VERIFIED but the verification_code field is NOT cleared — the session is
returned with only conversation_state rewritten, every other field (the
code included) unchanged. -/
theorem C1_correct_code_keeps_code (d : UserDoc) (hist : List Msg) (text : String)
    (h : d.verification_code = some (pyStrip text)) :
    verify_code false (some d) hist text =
      ⟨some { d with conversation_state := some "VERIFIED" }, hist,
       ["Your email has been verified! You can now use the bot."], [], none, VERIFIED⟩ := by
  simp [verify_code, get_verification_code, h, update_user_conversation_state]

/-- C1 witness: the amended theorem applied to the concrete fixture. -/
theorem C1_witness :
    verify_code false (some docAwaitCode) [] "123456" =
      ⟨some { docAwaitCode with conversation_state := some "VERIFIED" }, [],
       ["Your email has been verified! You can now use the bot."], [], none, VERIFIED⟩ :=
  C1_correct_code_keeps_code docAwaitCode [] "123456" (by decide)

/-- C2: the session-store adapter swallows write failures, so when the state
write performed by verify_code fails the handler still replies with the
success message and returns VERIFIED while the persisted state is unchanged
(still AWAITING_VERIFICATION_CODE) — the success path is taken after a
failed write, contradicting the stated failure semantics. -/
theorem C2_failed_write_still_reports_success :
    (verify_code true (some docAwaitCode) [] "123456").replies =
      ["Your email has been verified! You can now use the bot."] ∧
    (verify_code true (some docAwaitCode) [] "123456").ret = VERIFIED ∧
    (verify_code true (some docAwaitCode) [] "123456").db = some docAwaitCode ∧
    get_conversation_state (verify_code true (some docAwaitCode) [] "123456").db =
      some "AWAITING_VERIFICATION_CODE" := by
  exact ⟨rfl, rfl, rfl, rfl⟩

/-- C3 counterexample: the deletion handler leaves the in-memory dialogue
context untouched — after /delete the user's history still holds its turns,
so the Dialogue Context is not destroyed. -/
theorem C3_counterexample :
    (delete_user (some docStage3) [⟨Role.user, some "hi"⟩]).db = none ∧
    (delete_user (some docStage3) [⟨Role.user, some "hi"⟩]).hist = [⟨Role.user, some "hi"⟩] ∧
    (delete_user (some docStage3) [⟨Role.user, some "hi"⟩]).hist ≠ [] := by
  exact ⟨rfl, rfl, by decide⟩

/-- C3 (amended): the deletion command, in any state or with no session,
destroys the persisted Session and always reports success, but leaves the
in-memory Dialogue Context unchanged; a subsequent registration start on the
deleted store creates a brand-new STARTED session with email, code, case,
issues and aspects all null. -/
theorem C3_delete_then_start (db : Db) (hist hist2 : List Msg) :
    delete_user db hist =
      ⟨none, hist, ["Your data has been deleted. To start again, use the /start command."],
       [], none, END⟩ ∧
    start (delete_user db hist).db hist2 =
      ⟨some ⟨none, none, some "STARTED", none, none, none⟩, hist2,
       ["Welcome! You need to register before using the bot. Please click the button below to register."],
       [], none, STARTED⟩ := by
  exact ⟨rfl, rfl⟩

/-- C4: an advance event whose guard fails is rejected with the persisted
state unchanged and no side effect: when the persisted state is not STAGE_1,
go_to_second_stage returns the store and the dialogue history unchanged with
only the rejection reply (and likewise go_to_third_stage when the state is
not STAGE_2). -/
theorem C4_advance_guard (db : Db) (hist : List Msg) :
    (get_conversation_state db ≠ some "STAGE_1" →
      go_to_second_stage false db hist =
        ⟨db, hist, ["You need to complete Stage 1 before proceeding to Stage 2."],
         [], none, STAGE_1⟩) ∧
    (get_conversation_state db ≠ some "STAGE_2" →
      go_to_third_stage false db hist =
        ⟨db, hist, ["You need to complete Stage 2 before proceeding to Stage 3."],
         [], none, STAGE_2⟩) := by
  constructor <;> intro h <;> simp [go_to_second_stage, go_to_third_stage, h]

/-- C4 witness: both guards applied to a user who is only VERIFIED. -/
theorem C4_witness :
    go_to_second_stage false (some docVerified) [] =
      ⟨some docVerified, [], ["You need to complete Stage 1 before proceeding to Stage 2."],
       [], none, STAGE_1⟩ ∧
    go_to_third_stage false (some docVerified) [] =
      ⟨some docVerified, [], ["You need to complete Stage 2 before proceeding to Stage 3."],
       [], none, STAGE_2⟩ :=
  ⟨(C4_advance_guard (some docVerified) []).1 (by decide),
   (C4_advance_guard (some docVerified) []).2 (by decide)⟩

/-- C10: the begin-stage-1 handler performs no precondition check: for every
session document (hence every state it is routed from — VERIFIED, STAGE_1,
STAGE_2 and STAGE_3) it rewrites only conversation_state to AWAITING_CASE,
leaving email, verification code, case, issues and aspects texts and the
dialogue history unchanged, with no mail and no model call. -/
theorem C10_start_stage_one_unconditional (d : UserDoc) (hist : List Msg) :
    go_to_first_stage false (some d) hist =
      ⟨some { d with conversation_state := some "AWAITING_CASE" }, hist,
       ["Please enter your case for analysis or upload a document (PDF, DOC, or DOCX):"],
       [], none, AWAITING_CASE⟩ :=
  rfl

/-- C5 counterexample: in STAGE_3 with an empty dialogue context, a message
met by an empty model stream yields the failure reply, but the dialogue
context is NOT left without appends — the user turn appended before the
model call remains in it. -/
theorem C5_counterexample :
    (stage_three_conversation (some docStage3) [] (some "Hello") "prompt" false []).hist =
      [⟨Role.user, some "Hello"⟩] ∧
    (stage_three_conversation (some docStage3) [] (some "Hello") "prompt" false []).hist ≠ [] ∧
    (stage_three_conversation (some docStage3) [] (some "Hello") "prompt" false []).replies =
      ["There was an error with the message format. Please try again."] ∧
    (stage_three_conversation (some docStage3) [] (some "Hello") "prompt" false []).db =
      some docStage3 := by
  exact ⟨rfl, by decide, rfl, rfl⟩

/-- C5 (amended): in state STAGE_N, when the concatenated model response is
empty after stripping, the exchange is treated as a failure: the failure
message is reported, no assistant turn is appended, the store is unchanged
and the handler stays in STAGE_N — but the user turn appended before the
model call remains in the dialogue context. -/
theorem C5_empty_response_failure (db1 db2 db3 : Db) (h1 h2 h3 : List Msg) (s sp : String)
    (stream : List (Option String)) (hs : pyStrip s ≠ "")
    (hc : pyStrip (stream_concat stream) = "") :
    (get_conversation_state db1 = some "STAGE_1" →
      stage_one_conversation db1 h1 (some s) sp false stream =
        ⟨db1, h1 ++ [⟨Role.user, some (pyStrip s)⟩],
         ["There was an error with the message format. Please try again."], [],
         some ([⟨Role.system, some sp⟩, ⟨Role.user, get_user_case_data db1⟩] ++
               (h1 ++ [⟨Role.user, some (pyStrip s)⟩])), STAGE_1⟩) ∧
    (get_conversation_state db2 = some "STAGE_2" →
      stage_two_conversation db2 h2 (some s) sp false stream =
        ⟨db2, h2 ++ [⟨Role.user, some (pyStrip s)⟩],
         ["There was an error with the message format. Please try again."], [],
         some ([⟨Role.system, some sp⟩, ⟨Role.user, get_user_case_data db2⟩,
                ⟨Role.user, get_user_issues db2⟩] ++
               (h2 ++ [⟨Role.user, some (pyStrip s)⟩])), STAGE_2⟩) ∧
    (get_conversation_state db3 = some "STAGE_3" →
      stage_three_conversation db3 h3 (some s) sp false stream =
        ⟨db3, h3 ++ [⟨Role.user, some (pyStrip s)⟩],
         ["There was an error with the message format. Please try again."], [],
         some ([⟨Role.system, some sp⟩, ⟨Role.user, get_user_case_data db3⟩,
                ⟨Role.user, get_user_issues db3⟩, ⟨Role.user, get_user_aspects db3⟩] ++
               (h3 ++ [⟨Role.user, some (pyStrip s)⟩])), STAGE_3⟩) := by
  refine ⟨?_, ?_, ?_⟩ <;> intro h <;>
    simp [stage_one_conversation, stage_two_conversation, stage_three_conversation, hs, h, hc]

/-- C5 witness: the amended theorem applied in each stage with the concrete
fixtures, an empty stream and the message Hello. -/
theorem C5_witness :
    stage_one_conversation (some docStage1) [] (some "Hello") "prompt" false [] =
      ⟨some docStage1, [⟨Role.user, some "Hello"⟩],
       ["There was an error with the message format. Please try again."], [],
       some ([⟨Role.system, some "prompt"⟩, ⟨Role.user, get_user_case_data (some docStage1)⟩] ++
             ([] ++ [⟨Role.user, some (pyStrip "Hello")⟩])), STAGE_1⟩ ∧
    stage_two_conversation (some docStage2) [] (some "Hello") "prompt" false [] =
      ⟨some docStage2, [⟨Role.user, some "Hello"⟩],
       ["There was an error with the message format. Please try again."], [],
       some ([⟨Role.system, some "prompt"⟩, ⟨Role.user, get_user_case_data (some docStage2)⟩,
              ⟨Role.user, get_user_issues (some docStage2)⟩] ++
             ([] ++ [⟨Role.user, some (pyStrip "Hello")⟩])), STAGE_2⟩ ∧
    stage_three_conversation (some docStage3) [] (some "Hello") "prompt" false [] =
      ⟨some docStage3, [⟨Role.user, some "Hello"⟩],
       ["There was an error with the message format. Please try again."], [],
       some ([⟨Role.system, some "prompt"⟩, ⟨Role.user, get_user_case_data (some docStage3)⟩,
              ⟨Role.user, get_user_issues (some docStage3)⟩,
              ⟨Role.user, get_user_aspects (some docStage3)⟩] ++
             ([] ++ [⟨Role.user, some (pyStrip "Hello")⟩])), STAGE_3⟩ := by
  have h := C5_empty_response_failure (some docStage1) (some docStage2) (some docStage3)
    [] [] [] "Hello" "prompt" [] (by decide) (by decide)
  exact ⟨h.1 (by decide), h.2.1 (by decide), h.2.2 (by decide)⟩

/-- Helper: one resend issued in any non-VERIFIED state dispatches the fresh
code to the stored address and persists it, returning to
AWAITING_VERIFICATION_CODE. -/
theorem resend_step (d : UserDoc) (hist : List Msg) (c : String)
    (h : d.conversation_state ≠ some "VERIFIED") :
    resend_verification false false c (some d) hist =
      ⟨some { d with verification_code := some c,
                     conversation_state := some "AWAITING_VERIFICATION_CODE" },
       hist, ["The verification code has been resent. Please check your email."],
       [(d.email, c)], none, AWAITING_VERIFICATION_CODE⟩ := by
  simp [resend_verification, get_conversation_state, get_user_email, update_user_email, h]

/-- C7: resending in AWAITING_VERIFICATION_CODE (twice) persists only the
most recent generated code, dispatches each e-mail with the code generated
for it, keeps the state AWAITING_VERIFICATION_CODE, and afterwards only the
latest code verifies: any submission not stripping to the latest code is
rejected with the store unchanged, while the latest code is accepted. -/
theorem C7_resend_only_latest_code (d : UserDoc) (hist : List Msg) (c1 c2 : String)
    (h : d.conversation_state = some "AWAITING_VERIFICATION_CODE") :
    resend_verification false false c1 (some d) hist =
      ⟨some { d with verification_code := some c1,
                     conversation_state := some "AWAITING_VERIFICATION_CODE" },
       hist, ["The verification code has been resent. Please check your email."],
       [(d.email, c1)], none, AWAITING_VERIFICATION_CODE⟩ ∧
    resend_verification false false c2
        (resend_verification false false c1 (some d) hist).db hist =
      ⟨some { d with verification_code := some c2,
                     conversation_state := some "AWAITING_VERIFICATION_CODE" },
       hist, ["The verification code has been resent. Please check your email."],
       [(d.email, c2)], none, AWAITING_VERIFICATION_CODE⟩ ∧
    (∀ t : String, pyStrip t ≠ c2 →
      verify_code false
          (some { d with verification_code := some c2,
                         conversation_state := some "AWAITING_VERIFICATION_CODE" }) hist t =
        ⟨some { d with verification_code := some c2,
                       conversation_state := some "AWAITING_VERIFICATION_CODE" }, hist,
         ["Incorrect code. Please try again or click the button below to resend the verification email."],
         [], none, AWAITING_VERIFICATION_CODE⟩) ∧
    (∀ t : String, pyStrip t = c2 →
      (verify_code false
          (some { d with verification_code := some c2,
                         conversation_state := some "AWAITING_VERIFICATION_CODE" }) hist t).ret =
        VERIFIED) := by
  have h1 : d.conversation_state ≠ some "VERIFIED" := by simp [h]
  have r1 := resend_step d hist c1 h1
  refine ⟨r1, ?_, ?_, ?_⟩
  · rw [r1]
    exact resend_step _ hist c2 (by simp)
  · intro t ht
    simp [verify_code, get_verification_code, ht]
  · intro t ht
    simp [verify_code, get_verification_code, ht]

/-- C7 witness: two concrete resends with codes 111111 then 222222; the stale
code 111111 is rejected and 222222 is accepted. -/
theorem C7_witness :
    resend_verification false false "111111" (some docAwaitCode) [] =
      ⟨some { docAwaitCode with verification_code := some "111111",
                                conversation_state := some "AWAITING_VERIFICATION_CODE" },
       [], ["The verification code has been resent. Please check your email."],
       [(docAwaitCode.email, "111111")], none, AWAITING_VERIFICATION_CODE⟩ ∧
    resend_verification false false "222222"
        (resend_verification false false "111111" (some docAwaitCode) []).db [] =
      ⟨some { docAwaitCode with verification_code := some "222222",
                                conversation_state := some "AWAITING_VERIFICATION_CODE" },
       [], ["The verification code has been resent. Please check your email."],
       [(docAwaitCode.email, "222222")], none, AWAITING_VERIFICATION_CODE⟩ ∧
    verify_code false
        (some { docAwaitCode with verification_code := some "222222",
                                  conversation_state := some "AWAITING_VERIFICATION_CODE" })
        [] "111111" =
      ⟨some { docAwaitCode with verification_code := some "222222",
                                conversation_state := some "AWAITING_VERIFICATION_CODE" }, [],
       ["Incorrect code. Please try again or click the button below to resend the verification email."],
       [], none, AWAITING_VERIFICATION_CODE⟩ ∧
    (verify_code false
        (some { docAwaitCode with verification_code := some "222222",
                                  conversation_state := some "AWAITING_VERIFICATION_CODE" })
        [] "222222").ret = VERIFIED := by
  have h := C7_resend_only_latest_code docAwaitCode [] "111111" "222222" (by decide)
  exact ⟨h.1, h.2.1, h.2.2.1 "111111" (by decide), h.2.2.2 "222222" (by decide)⟩

/-- C8: a free-text message processed in STAGE_N with an empty dialogue
context sends the model the stage system instruction, then the persisted
case text (stage 1 and up), then the persisted issues text (stage 2 and up),
then the persisted aspects text (stage 3), each as a separate turn in that
fixed order, followed by the (empty) dialogue history ending with the new
user input. -/
theorem C8_seed_order (db1 db2 db3 : Db) (s sp : String) (apiFail : Bool)
    (stream : List (Option String)) (hs : pyStrip s ≠ "") :
    (get_conversation_state db1 = some "STAGE_1" →
      (stage_one_conversation db1 [] (some s) sp apiFail stream).sent =
        some [⟨Role.system, some sp⟩, ⟨Role.user, get_user_case_data db1⟩,
              ⟨Role.user, some (pyStrip s)⟩]) ∧
    (get_conversation_state db2 = some "STAGE_2" →
      (stage_two_conversation db2 [] (some s) sp apiFail stream).sent =
        some [⟨Role.system, some sp⟩, ⟨Role.user, get_user_case_data db2⟩,
              ⟨Role.user, get_user_issues db2⟩, ⟨Role.user, some (pyStrip s)⟩]) ∧
    (get_conversation_state db3 = some "STAGE_3" →
      (stage_three_conversation db3 [] (some s) sp apiFail stream).sent =
        some [⟨Role.system, some sp⟩, ⟨Role.user, get_user_case_data db3⟩,
              ⟨Role.user, get_user_issues db3⟩, ⟨Role.user, get_user_aspects db3⟩,
              ⟨Role.user, some (pyStrip s)⟩]) := by
  refine ⟨?_, ?_, ?_⟩ <;> intro h <;>
    cases apiFail <;>
      simp [stage_one_conversation, stage_two_conversation, stage_three_conversation,
            hs, h] <;>
      split <;> rfl

/-- C8 witness: the seeding order applied to the stage fixtures with the
message Hello. -/
theorem C8_witness :
    (stage_one_conversation (some docStage1) [] (some "Hello") "prompt" false
        [some "answer"]).sent =
      some [⟨Role.system, some "prompt"⟩, ⟨Role.user, get_user_case_data (some docStage1)⟩,
            ⟨Role.user, some (pyStrip "Hello")⟩] ∧
    (stage_two_conversation (some docStage2) [] (some "Hello") "prompt" false
        [some "answer"]).sent =
      some [⟨Role.system, some "prompt"⟩, ⟨Role.user, get_user_case_data (some docStage2)⟩,
            ⟨Role.user, get_user_issues (some docStage2)⟩,
            ⟨Role.user, some (pyStrip "Hello")⟩] ∧
    (stage_three_conversation (some docStage3) [] (some "Hello") "prompt" false
        [some "answer"]).sent =
      some [⟨Role.system, some "prompt"⟩, ⟨Role.user, get_user_case_data (some docStage3)⟩,
            ⟨Role.user, get_user_issues (some docStage3)⟩,
            ⟨Role.user, get_user_aspects (some docStage3)⟩,
            ⟨Role.user, some (pyStrip "Hello")⟩] := by
  have h := C8_seed_order (some docStage1) (some docStage2) (some docStage3) "Hello" "prompt"
    false [some "answer"] (by decide)
  exact ⟨h.1 (by decide), h.2.1 (by decide), h.2.2 (by decide)⟩

/-- C9: an empty or whitespace-only free-text message in any STAGE_N handler
(and likewise a message without text at all) is rejected before any model
call: no turn sequence is sent to the model, the store and the dialogue
context are unchanged, and the handler stays in STAGE_N. -/
theorem C9_empty_input_rejected (db : Db) (hist : List Msg) (s sp : String) (apiFail : Bool)
    (stream : List (Option String)) (h : pyStrip s = "") :
    stage_one_conversation db hist (some s) sp apiFail stream =
      ⟨db, hist, ["It seems like your message is empty. Please provide valid input."],
       [], none, STAGE_1⟩ ∧
    stage_two_conversation db hist (some s) sp apiFail stream =
      ⟨db, hist, ["It seems like your message is empty. Please provide valid input."],
       [], none, STAGE_2⟩ ∧
    stage_three_conversation db hist (some s) sp apiFail stream =
      ⟨db, hist, ["It seems like your message is empty. Please provide valid input."],
       [], none, STAGE_3⟩ ∧
    stage_one_conversation db hist none sp apiFail stream =
      ⟨db, hist, ["It seems like your message is empty. Please provide valid input."],
       [], none, STAGE_1⟩ ∧
    stage_two_conversation db hist none sp apiFail stream =
      ⟨db, hist, ["It seems like your message is empty. Please provide valid input."],
       [], none, STAGE_2⟩ ∧
    stage_three_conversation db hist none sp apiFail stream =
      ⟨db, hist, ["It seems like your message is empty. Please provide valid input."],
       [], none, STAGE_3⟩ := by
  refine ⟨?_, ?_, ?_, rfl, rfl, rfl⟩ <;>
    simp [stage_one_conversation, stage_two_conversation, stage_three_conversation, h]

/-- C9 witness: a whitespace-only message in each stage, tried against a
STAGE_1 session, with a non-empty stream available (and never consumed). -/
theorem C9_witness :
    stage_one_conversation (some docStage1) [] (some "   ") "prompt" false [some "answer"] =
      ⟨some docStage1, [], ["It seems like your message is empty. Please provide valid input."],
       [], none, STAGE_1⟩ ∧
    stage_two_conversation (some docStage1) [] (some "   ") "prompt" false [some "answer"] =
      ⟨some docStage1, [], ["It seems like your message is empty. Please provide valid input."],
       [], none, STAGE_2⟩ ∧
    stage_three_conversation (some docStage1) [] (some "   ") "prompt" false [some "answer"] =
      ⟨some docStage1, [], ["It seems like your message is empty. Please provide valid input."],
       [], none, STAGE_3⟩ := by
  have h := C9_empty_input_rejected (some docStage1) [] "   " "prompt" false [some "answer"]
    (by decide)
  exact ⟨h.1, h.2.1, h.2.2.1⟩

/-- Helper: a conversation-state write never touches the issues field. -/
theorem issues_update_state (f : Bool) (db : Db) (cs : String) :
    get_user_issues (update_user_conversation_state f db cs) = get_user_issues db := by
  cases f <;> cases db <;> rfl

/-- Helper: an email/code write never touches the issues field. -/
theorem issues_update_email (f : Bool) (db : Db) (e : Option String) (c : String) :
    get_user_issues (update_user_email f db e c) = get_user_issues db := by
  cases f <;> cases db <;> rfl

/-- Helper: a case write never touches the issues field. -/
theorem issues_update_case (f : Bool) (db : Db) (t : String) :
    get_user_issues (update_user_case_data f db t) = get_user_issues db := by
  cases f <;> cases db <;> rfl

/-- Helper: an aspects write never touches the issues field. -/
theorem issues_update_aspects (f : Bool) (db : Db) (t : String) :
    get_user_issues (update_user_aspects f db t) = get_user_issues db := by
  cases f <;> cases db <;> rfl

/-- Helper: inserting a new user leaves the issues field as it was (null on a
fresh document). -/
theorem issues_insert (f : Bool) (db : Db) (e c : Option String) (cs : String) :
    get_user_issues (insert_user f db e c cs) = get_user_issues db := by
  cases f <;> cases db <;> rfl

/-- Helper: a registration reset deletes the issues field. -/
theorem issues_reset (db : Db) :
    get_user_issues (reset_user_registration false db) = none := by
  cases db <;> rfl

/-- Helper: a conversation-state write never touches the aspects field. -/
theorem aspects_update_state (f : Bool) (db : Db) (cs : String) :
    get_user_aspects (update_user_conversation_state f db cs) = get_user_aspects db := by
  cases f <;> cases db <;> rfl

/-- Helper: an email/code write never touches the aspects field. -/
theorem aspects_update_email (f : Bool) (db : Db) (e : Option String) (c : String) :
    get_user_aspects (update_user_email f db e c) = get_user_aspects db := by
  cases f <;> cases db <;> rfl

/-- Helper: a case write never touches the aspects field. -/
theorem aspects_update_case (f : Bool) (db : Db) (t : String) :
    get_user_aspects (update_user_case_data f db t) = get_user_aspects db := by
  cases f <;> cases db <;> rfl

/-- Helper: an issues write never touches the aspects field. -/
theorem aspects_update_issues (f : Bool) (db : Db) (t : String) :
    get_user_aspects (update_user_issues f db t) = get_user_aspects db := by
  cases f <;> cases db <;> rfl

/-- Helper: inserting a new user leaves the aspects field as it was. -/
theorem aspects_insert (f : Bool) (db : Db) (e c : Option String) (cs : String) :
    get_user_aspects (insert_user f db e c cs) = get_user_aspects db := by
  cases f <;> cases db <;> rfl

/-- Helper: a registration reset deletes the aspects field. -/
theorem aspects_reset (db : Db) :
    get_user_aspects (reset_user_registration false db) = none := by
  cases db <;> rfl

/-- Helper: /start on an existing session never writes to the store. -/
theorem start_db_some (d : UserDoc) (hist : List Msg) :
    (start (some d) hist).db = some d := by
  obtain ⟨e, v, cs, cd, iss, asp⟩ := d
  cases cs with
  | none => rfl
  | some c =>
      simp [start, user_exists, get_conversation_state, apply_ite HRes.db, ite_self]

/-- Helper: receive_email never touches the issues field. -/
theorem receive_email_issues (f s : Bool) (c : String) (db : Db) (hist : List Msg)
    (t : String) :
    get_user_issues (receive_email f s c db hist t).db = get_user_issues db := by
  simp only [receive_email]
  split
  · rfl
  · cases s <;> simp [issues_update_email]

/-- Helper: receive_email never touches the aspects field. -/
theorem receive_email_aspects (f s : Bool) (c : String) (db : Db) (hist : List Msg)
    (t : String) :
    get_user_aspects (receive_email f s c db hist t).db = get_user_aspects db := by
  simp only [receive_email]
  split
  · rfl
  · cases s <;> simp [aspects_update_email]

/-- Helper: verify_code never touches the issues field. -/
theorem verify_code_issues (f : Bool) (db : Db) (hist : List Msg) (t : String) :
    get_user_issues (verify_code f db hist t).db = get_user_issues db := by
  rcases hv : get_verification_code db with _ | c <;>
    simp [verify_code, hv] <;>
      first
      | rfl
      | (split <;> simp [issues_update_state])

/-- Helper: verify_code never touches the aspects field. -/
theorem verify_code_aspects (f : Bool) (db : Db) (hist : List Msg) (t : String) :
    get_user_aspects (verify_code f db hist t).db = get_user_aspects db := by
  rcases hv : get_verification_code db with _ | c <;>
    simp [verify_code, hv] <;>
      first
      | rfl
      | (split <;> simp [aspects_update_state])

/-- Helper: resend_verification never touches the issues field. -/
theorem resend_issues (f s : Bool) (c : String) (db : Db) (hist : List Msg) :
    get_user_issues (resend_verification f s c db hist).db = get_user_issues db := by
  simp only [resend_verification]
  split
  · rfl
  · split
    · rfl
    · simp [issues_update_email]

/-- Helper: resend_verification never touches the aspects field. -/
theorem resend_aspects (f s : Bool) (c : String) (db : Db) (hist : List Msg) :
    get_user_aspects (resend_verification f s c db hist).db = get_user_aspects db := by
  simp only [resend_verification]
  split
  · rfl
  · split
    · rfl
    · simp [aspects_update_email]

/-- Helper: the stage-2 advance handler only ever writes conversation_state. -/
theorem go2_issues (f : Bool) (db : Db) (hist : List Msg) :
    get_user_issues (go_to_second_stage f db hist).db = get_user_issues db := by
  unfold go_to_second_stage
  split <;> simp [issues_update_state]

/-- Helper: the stage-2 advance handler never touches the aspects field. -/
theorem go2_aspects (f : Bool) (db : Db) (hist : List Msg) :
    get_user_aspects (go_to_second_stage f db hist).db = get_user_aspects db := by
  unfold go_to_second_stage
  split <;> simp [aspects_update_state]

/-- Helper: the stage-3 advance handler never touches the issues field. -/
theorem go3_issues (f : Bool) (db : Db) (hist : List Msg) :
    get_user_issues (go_to_third_stage f db hist).db = get_user_issues db := by
  unfold go_to_third_stage
  split <;> simp [issues_update_state]

/-- Helper: the stage-3 advance handler never touches the aspects field. -/
theorem go3_aspects (f : Bool) (db : Db) (hist : List Msg) :
    get_user_aspects (go_to_third_stage f db hist).db = get_user_aspects db := by
  unfold go_to_third_stage
  split <;> simp [aspects_update_state]

/-- Helper: after receive_case the issues field is unchanged (rejected input)
or the empty string (success on an existing document) or null (no document). -/
theorem receive_case_issues (db : Db) (hist : List Msg) (t : String) :
    get_user_issues (receive_case db hist t).db = get_user_issues db ∨
    get_user_issues (receive_case db hist t).db = some "" ∨
    get_user_issues (receive_case db hist t).db = none := by
  cases db with
  | none =>
      simp only [receive_case]
      split
      · left; rfl
      · right; right; rfl
  | some d =>
      simp only [receive_case]
      split
      · left; rfl
      · right; left; rfl

/-- Helper: after receive_case the aspects field is unchanged or the empty
string or null. -/
theorem receive_case_aspects (db : Db) (hist : List Msg) (t : String) :
    get_user_aspects (receive_case db hist t).db = get_user_aspects db ∨
    get_user_aspects (receive_case db hist t).db = some "" ∨
    get_user_aspects (receive_case db hist t).db = none := by
  cases db with
  | none =>
      simp only [receive_case]
      split
      · left; rfl
      · right; right; rfl
  | some d =>
      simp only [receive_case]
      split
      · left; rfl
      · right; left; rfl

/-- Helper: the stage-1 chat handler never writes to the store. -/
theorem stage_one_db (db : Db) (hist : List Msg) (t : Option String) (sp : String)
    (f : Bool) (st : List (Option String)) :
    (stage_one_conversation db hist t sp f st).db = db := by
  cases t with
  | none => rfl
  | some s =>
      simp [stage_one_conversation, apply_ite HRes.db, ite_self]

/-- Helper: the stage-2 chat handler never writes to the store. -/
theorem stage_two_db (db : Db) (hist : List Msg) (t : Option String) (sp : String)
    (f : Bool) (st : List (Option String)) :
    (stage_two_conversation db hist t sp f st).db = db := by
  cases t with
  | none => rfl
  | some s =>
      simp [stage_two_conversation, apply_ite HRes.db, ite_self]

/-- Helper: the stage-3 chat handler never writes to the store. -/
theorem stage_three_db (db : Db) (hist : List Msg) (t : Option String) (sp : String)
    (f : Bool) (st : List (Option String)) :
    (stage_three_conversation db hist t sp f st).db = db := by
  cases t with
  | none => rfl
  | some s =>
      simp [stage_three_conversation, apply_ite HRes.db, ite_self]

/-- Helper: across any single failure-free event, a non-empty issues field
either was already non-empty or was just written by the issues submission,
which simultaneously sets the state to STAGE_2. -/
theorem step_issues (γ : Sys) (e : Event)
    (h : issuesNonempty (step γ e) = true) :
    get_conversation_state (step γ e).1 = some "STAGE_2" ∨ issuesNonempty γ = true := by
  obtain ⟨db, hist⟩ := γ
  cases e with
  | evStart =>
      right
      cases db with
      | none => simpa [step, issuesNonempty] using h
      | some d => simpa [step, issuesNonempty, start_db_some] using h
  | evRegister =>
      right
      simpa [step, register, issuesNonempty, issues_update_state] using h
  | evEmail t c =>
      right
      simpa [step, issuesNonempty, receive_email_issues] using h
  | evVerify t =>
      right
      simpa [step, issuesNonempty, verify_code_issues] using h
  | evResend c =>
      right
      simpa [step, issuesNonempty, resend_issues] using h
  | evCancel =>
      right
      simpa [step, cancel_registration, issuesNonempty, issues_reset] using h
  | evStage1Btn =>
      right
      simpa [step, go_to_first_stage, issuesNonempty, issues_update_state] using h
  | evStage2Btn =>
      right
      simpa [step, issuesNonempty, go2_issues] using h
  | evStage3Btn =>
      right
      simpa [step, issuesNonempty, go3_issues] using h
  | evCase t =>
      rcases receive_case_issues db hist t with hc | hc | hc
      · right
        simpa [step, issuesNonempty, hc] using h
      · exfalso
        simp [step, issuesNonempty, hc] at h
        exact absurd h (by decide)
      · exfalso
        simp [step, issuesNonempty, hc] at h
  | evIssues t =>
      cases db with
      | none => exfalso; simpa [step, receive_issues, issuesNonempty,
          update_user_issues, update_user_conversation_state, get_user_issues] using h
      | some d =>
          left
          simp [step, receive_issues, update_user_issues,
            update_user_conversation_state, get_conversation_state]
  | evAspects t =>
      right
      simpa [step, receive_aspects, issuesNonempty, issues_update_state,
        issues_update_aspects] using h
  | evChat1 t sp st =>
      right
      simpa [step, issuesNonempty, stage_one_db] using h
  | evChat2 t sp st =>
      right
      simpa [step, issuesNonempty, stage_two_db] using h
  | evChat3 t sp st =>
      right
      simpa [step, issuesNonempty, stage_three_db] using h
  | evDelete =>
      exfalso
      simpa [step, delete_user, delete_user_from_db, issuesNonempty, get_user_issues] using h

/-- Helper: across any single failure-free event, a non-empty aspects field
either was already non-empty or was just written by the aspects submission,
which simultaneously sets the state to STAGE_3. -/
theorem step_aspects (γ : Sys) (e : Event)
    (h : aspectsNonempty (step γ e) = true) :
    get_conversation_state (step γ e).1 = some "STAGE_3" ∨ aspectsNonempty γ = true := by
  obtain ⟨db, hist⟩ := γ
  cases e with
  | evStart =>
      right
      cases db with
      | none => simpa [step, aspectsNonempty] using h
      | some d => simpa [step, aspectsNonempty, start_db_some] using h
  | evRegister =>
      right
      simpa [step, register, aspectsNonempty, aspects_update_state] using h
  | evEmail t c =>
      right
      simpa [step, aspectsNonempty, receive_email_aspects] using h
  | evVerify t =>
      right
      simpa [step, aspectsNonempty, verify_code_aspects] using h
  | evResend c =>
      right
      simpa [step, aspectsNonempty, resend_aspects] using h
  | evCancel =>
      right
      simpa [step, cancel_registration, aspectsNonempty, aspects_reset] using h
  | evStage1Btn =>
      right
      simpa [step, go_to_first_stage, aspectsNonempty, aspects_update_state] using h
  | evStage2Btn =>
      right
      simpa [step, aspectsNonempty, go2_aspects] using h
  | evStage3Btn =>
      right
      simpa [step, aspectsNonempty, go3_aspects] using h
  | evCase t =>
      rcases receive_case_aspects db hist t with hc | hc | hc
      · right
        simpa [step, aspectsNonempty, hc] using h
      · exfalso
        simp [step, aspectsNonempty, hc] at h
        exact absurd h (by decide)
      · exfalso
        simp [step, aspectsNonempty, hc] at h
  | evIssues t =>
      right
      simpa [step, receive_issues, aspectsNonempty, aspects_update_state,
        aspects_update_issues] using h
  | evAspects t =>
      cases db with
      | none => exfalso; simpa [step, receive_aspects, aspectsNonempty,
          update_user_aspects, update_user_conversation_state, get_user_aspects] using h
      | some d =>
          left
          simp [step, receive_aspects, update_user_aspects,
            update_user_conversation_state, get_conversation_state]
  | evChat1 t sp st =>
      right
      simpa [step, aspectsNonempty, stage_one_db] using h
  | evChat2 t sp st =>
      right
      simpa [step, aspectsNonempty, stage_two_db] using h
  | evChat3 t sp st =>
      right
      simpa [step, aspectsNonempty, stage_three_db] using h
  | evDelete =>
      exfalso
      simpa [step, delete_user, delete_user_from_db, aspectsNonempty, get_user_aspects] using h

/-- Helper: a Boolean configuration property that can only become true on a
step that lands in state `s` must, along any trace on which it ends up true,
either have been true initially or some step of the trace landed in `s`. -/
theorem run_flag_reached (P : Sys → Bool) (s : String)
    (hstep : ∀ γ e, P (step γ e) = true →
      get_conversation_state (step γ e).1 = some s ∨ P γ = true)
    (evs : List Event) :
    ∀ γ : Sys, P (run γ evs) = true → reachedDuring s γ evs = true ∨ P γ = true := by
  induction evs with
  | nil =>
      intro γ h
      right
      exact h
  | cons e es ih =>
      intro γ h
      rcases ih (step γ e) h with hr | hp
      · left
        simp [reachedDuring, hr]
      · rcases hstep γ e hp with hs | hP
        · left
          simp [reachedDuring, hs]
        · right
          exact hP

/-- C6 counterexample: along the concrete failure-free trace that registers,
verifies and submits a first case, the session ends in STAGE_1 with
issues_text and aspects_text equal to the empty string — non-null — although
the conversation state never reached STAGE_2 (nor STAGE_3). -/
theorem C6_counterexample :
    get_user_issues (run Sinit evsCase).1 = some "" ∧
    get_user_issues (run Sinit evsCase).1 ≠ none ∧
    get_user_aspects (run Sinit evsCase).1 = some "" ∧
    get_user_aspects (run Sinit evsCase).1 ≠ none ∧
    get_conversation_state (run Sinit evsCase).1 = some "STAGE_1" ∧
    reachedDuring "STAGE_2" Sinit evsCase = false ∧
    reachedDuring "STAGE_3" Sinit evsCase = false := by
  decide

/-- C6 (amended): in every session reachable by failure-free execution from
the empty store, issues_text holds a NON-EMPTY value only once the
conversation state has reached STAGE_2 and aspects_text holds a non-empty
value only once it has reached STAGE_3; submitting a new case from
AWAITING_CASE persists the stripped case text and overwrites issues_text and
aspects_text with the empty string (a non-null clearing) while setting the
state to STAGE_1 and resetting the dialogue context. -/
theorem C6_issues_aspects_invariant :
    (∀ evs : List Event, issuesNonempty (run Sinit evs) = true →
      reachedDuring "STAGE_2" Sinit evs = true) ∧
    (∀ evs : List Event, aspectsNonempty (run Sinit evs) = true →
      reachedDuring "STAGE_3" Sinit evs = true) ∧
    (∀ (d : UserDoc) (hist : List Msg) (t : String), pyStrip t ≠ "" →
      receive_case (some d) hist t =
        ⟨some { d with case_data := some (pyStrip t), issues := some "",
                       aspects := some "", conversation_state := some "STAGE_1" }, [],
         ["Case received and processed. You can now start the analysis. Please describe the issues you have identified."],
         [], none, STAGE_1⟩) := by
  refine ⟨?_, ?_, ?_⟩
  · intro evs h
    rcases run_flag_reached issuesNonempty "STAGE_2" step_issues evs Sinit h with h1 | h1
    · exact h1
    · exact absurd h1 (by decide)
  · intro evs h
    rcases run_flag_reached aspectsNonempty "STAGE_3" step_aspects evs Sinit h with h1 | h1
    · exact h1
    · exact absurd h1 (by decide)
  · intro d hist t ht
    simp [receive_case, ht, update_user_case_data, update_user_issues,
      update_user_aspects, update_user_conversation_state]

/-- C6 witness: along the full happy-path trace the issues and aspects fields
are non-empty and both STAGE_2 and STAGE_3 were indeed reached, and a
concrete case submission from a VERIFIED session document produces exactly
the cleared-to-empty-string record. -/
theorem C6_witness :
    reachedDuring "STAGE_2" Sinit evsFull = true ∧
    reachedDuring "STAGE_3" Sinit evsFull = true ∧
    receive_case (some docVerified) [] " my case " =
      ⟨some { docVerified with case_data := some (pyStrip " my case "), issues := some "",
                               aspects := some "", conversation_state := some "STAGE_1" }, [],
       ["Case received and processed. You can now start the analysis. Please describe the issues you have identified."],
       [], none, STAGE_1⟩ := by
  have h := C6_issues_aspects_invariant
  exact ⟨h.1 evsFull (by decide), h.2.1 evsFull (by decide),
    h.2.2 docVerified [] " my case " (by decide)⟩

end LawBot
